import Mathlib

/-!
Verification of `colmapwork/gen_images.py`.

The script's `main` is embedded as a function producing a trace of events:
each observable action of the Python code (printing, mutating the
filesystem, downloading, computing a value of the sampling plan, writing a
frame) is one event, emitted in the order the code performs it.  External
effects (does the local path exist, what the YouTube fetch does, does the
output directory already exist, the opened clip's fps and duration) are
inputs packaged in an `Env` record.  Numeric values are rationals, with
Python `int(...)` truncation made explicit.
-/

/-- Minimal model of `pathlib.Path`: a list of path components.
Only `parent` and the `/` operator are used by the script. -/
structure PyPath where
  components : List String
deriving DecidableEq

/-- Python `Path.parent`: drop the last component. -/
def PyPath.parent (p : PyPath) : PyPath := ⟨p.components.dropLast⟩

/-- Python `Path / s`: append one component. -/
def PyPath.child (p : PyPath) (s : String) : PyPath := ⟨p.components ++ [s]⟩

/-- Python `Path(s)`: split a string path on `/`. -/
def pathOfString (s : String) : PyPath := ⟨s.splitOn "/"⟩

/-- Python `int(q)`: truncation toward zero (`num.tdiv den` on the reduced
fraction). -/
def pyInt (q : ℚ) : ℤ := q.num.tdiv q.den

/-- Python `range(0, n, step)` as a list of integers: `0, step, 2*step, ...`
strictly below `n` (empty when `step ≤ 0`, matching that the script only
calls it with a positive step). -/
def pyRangeStep (n step : ℤ) : List ℤ :=
  if 0 < step then
    (List.range ((n.toNat + step.toNat - 1) / step.toNat)).map (fun (i : ℕ) => (i : ℤ) * step)
  else []

/-- Python slice `l[:m]`: for `0 ≤ m` the first `m` elements, for `m < 0`
all but the last `|m|` elements. -/
def pySliceTo {α : Type} (l : List α) (m : ℤ) : List α :=
  if 0 ≤ m then l.take m.toNat else l.take (l.length - (-m).toNat)

/-- Outcome of the `pytubefix` interaction on a URL input. -/
inductive FetchOutcome where
  /-- an exception raised before the download call (constructing `YouTube`,
  filtering streams, `get_highest_resolution`) -/
  | raiseEarly (msg : String)
  /-- the stream filter `yt.streams.filter(file_extension="mp4")` returned no streams -/
  | noStreams
  /-- an exception raised by the `download` call itself -/
  | raiseDuringDownload (msg : String)
  /-- the download succeeded -/
  | downloadOk
deriving DecidableEq

/-- The external world a run of `main` observes. -/
structure Env where
  /-- whether the local `path` exists (`path.exists()`) -/
  pathExists : Bool
  /-- what the YouTube fetch does on a URL input -/
  fetch : FetchOutcome
  /-- whether the sibling `images` directory already exists -/
  outputDirExists : Bool
  /-- the `clip.fps` of the opened video -/
  fps : ℚ
  /-- the `clip.duration` of the opened video -/
  duration : ℚ
deriving DecidableEq

/-- One observable action of the script, in program order. -/
inductive Event where
  /-- an informational `print` -/
  | printedMsg (s : String)
  /-- the single `video_stream.download(...)` call -/
  | downloadAttempt
  /-- the download call returned -/
  | downloaded
  /-- the call `VideoFileClip(str(path))` -/
  | openedClip
  /-- the assignment `total_frames = int(clip.fps * clip.duration)` -/
  | computedTotalFrames (n : ℤ)
  /-- the `0 < perc_frames <= 1` check passed -/
  | fractionOk
  /-- an error `print` -/
  | printedError (s : String)
  /-- an early `return` -/
  | earlyReturn
  /-- an uncaught exception -/
  | crashed (s : String)
  /-- the call `shutil.rmtree(output_dir)` succeeded -/
  | removedDir (d : PyPath)
  /-- the call `output_dir.mkdir()` -/
  | createdDir (d : PyPath)
  /-- the assignment `frame_step = max(1, int(1 / perc_frames))` -/
  | computedStride (k : ℤ)
  /-- the assignment `frame_indices = range(0, total_frames, frame_step)[:max_frames]` -/
  | computedIndices (l : List ℤ)
  /-- one loop iteration: decoded the frame at time `t` and saved it to `f` -/
  | wroteFrame (i : ℤ) (f : PyPath) (t : ℚ)
  /-- the final `print` of the number of frames saved -/
  | reportedCount (n : ℕ)
deriving DecidableEq

/-- Python `s.startswith(pre)`, on the characters of the strings. -/
def pyStartsWith (s pre : String) : Bool := pre.data.isPrefixOf s.data

/-- Source condition `path.startswith("http://") or path.startswith("https://")`. -/
def isUrl (path : String) : Bool :=
  pyStartsWith path "http://" || pyStartsWith path "https://"

/-- The input-resolution phase (the first `if`/`else` of `main`): events
produced, and the resolved video path when the run continues. -/
def resolveInput (path : String) (env : Env) : List Event × Option PyPath :=
  if isUrl path then
    match env.fetch with
    | .raiseEarly msg =>
        ([.printedMsg "Downloading video from YouTube...",
          .printedError ("Error downloading video: " ++ msg), .earlyReturn], none)
    | .noStreams =>
        ([.printedMsg "Downloading video from YouTube...",
          .printedError "Error: No suitable MP4 video stream found.", .earlyReturn], none)
    | .raiseDuringDownload msg =>
        ([.printedMsg "Downloading video from YouTube...", .downloadAttempt,
          .printedError ("Error downloading video: " ++ msg), .earlyReturn], none)
    | .downloadOk =>
        ([.printedMsg "Downloading video from YouTube...", .downloadAttempt, .downloaded,
          .printedMsg "Downloaded video to downloaded_video"],
         some ⟨["downloaded_video.mp4"]⟩)
  else
    if env.pathExists then ([], some (pathOfString path))
    else ([.printedError "Error: File does not exist.", .earlyReturn], none)

/-- The resolved video path of a run whose resolution succeeds:
`Path("downloaded_video").with_suffix(".mp4")` for a URL, `Path(path)`
for a local file. -/
def resolvedP (path : String) : PyPath :=
  if isUrl path then ⟨["downloaded_video.mp4"]⟩ else pathOfString path

/-- Source line `total_frames = int(clip.fps * clip.duration)`. -/
def total_frames (env : Env) : ℤ := pyInt (env.fps * env.duration)

/-- Source line `frame_step = max(1, int(1 / perc_frames))`. -/
def frame_step (perc : ℚ) : ℤ := max 1 (pyInt (1 / perc))

/-- Source line `frame_indices = range(0, total_frames, frame_step)[:max_frames]`. -/
def sampledIndices (total step m : ℤ) : List ℤ := pySliceTo (pyRangeStep total step) m

/-- Source line `output_dir = path.parent / "images"`. -/
def outputDirOf (p : PyPath) : PyPath := p.parent.child "images"

/-- The frame-extraction loop: for each sampled index, decode the frame at
time `fnum / clip.fps` and save it to `output_dir / (str(fnum) + ".jpg")`. -/
def frameEvents (output_dir : PyPath) (fps : ℚ) (indices : List ℤ) : List Event :=
  indices.map (fun i => .wroteFrame i (output_dir.child (toString i ++ ".jpg")) ((i : ℚ) / fps))

/-- Everything after input resolution: open the clip, compute
`total_frames`, validate `perc_frames`, recreate the output directory
(`shutil.rmtree` raises `FileNotFoundError` when it does not exist),
compute the sampling plan, extract the frames, report the count. -/
def afterResolve (p : PyPath) (perc : ℚ) (max_frames : ℤ) (env : Env) : List Event :=
  let tf := total_frames env
  if 0 < perc ∧ perc ≤ 1 then
    if env.outputDirExists then
      let output_dir := outputDirOf p
      let step := frame_step perc
      let indices := sampledIndices tf step max_frames
      [.openedClip, .computedTotalFrames tf, .fractionOk,
       .removedDir output_dir, .createdDir output_dir,
       .computedStride step, .computedIndices indices,
       .printedMsg "Extracting frames..."]
        ++ frameEvents (outputDirOf p) env.fps indices
        ++ [.reportedCount indices.length]
    else
      [.openedClip, .computedTotalFrames tf, .fractionOk, .crashed "FileNotFoundError"]
  else
    [.openedClip, .computedTotalFrames tf,
     .printedError "Error: perc_frames must be between 0 and 1.", .earlyReturn]

/-- The whole of `main`, as the trace of events of one run. -/
def mainRun (path : String) (perc : ℚ) (max_frames : ℤ) (env : Env) : List Event :=
  match resolveInput path env with
  | (evs, none) => evs
  | (evs, some p) => evs ++ afterResolve p perc max_frames env

/-- Input resolution succeeds: the fetch worked (URL case) or the local
path exists. -/
def resolvesOk (path : String) (env : Env) : Bool :=
  if isUrl path then env.fetch == FetchOutcome.downloadOk else env.pathExists

/-- The events emitted by the input-resolution phase. -/
def resolveEvs (path : String) (env : Env) : List Event := (resolveInput path env).1

/-- Recognizer for the download-call event, used to count fetch attempts. -/
def isDownloadAttempt (e : Event) : Bool :=
  match e with
  | .downloadAttempt => true
  | _ => false

/-- A benign environment: the local file exists, the output directory
exists, fps 30, duration 10 seconds. -/
def envLocal : Env := ⟨true, FetchOutcome.downloadOk, true, 30, 10⟩

/-- Like `envLocal` but the sibling `images` directory is absent. -/
def envNoDir : Env := ⟨true, FetchOutcome.downloadOk, false, 30, 10⟩

/-- Like `envLocal` but the local file does not exist. -/
def envNoFile : Env := ⟨false, FetchOutcome.downloadOk, true, 30, 10⟩

/-- Like `envLocal` but the YouTube fetch finds no MP4 stream. -/
def envNoStreams : Env := ⟨true, FetchOutcome.noStreams, true, 30, 10⟩

example : isUrl "video.mp4" = false := by decide
example : isUrl "https://youtu.be/x" = true := by decide
example : pyRangeStep 10 3 = [0, 3, 6, 9] := by decide
example : pySliceTo (pyRangeStep 10 1) 3 = [0, 1, 2] := by decide
example : pySliceTo (pyRangeStep 10 1) (-3) = [0, 1, 2, 3, 4, 5, 6] := by decide
example : pyInt (30 * 10 : ℚ) = 300 := by with_unfolding_all rfl
example : frame_step (mkRat 1 10) = 10 := by with_unfolding_all rfl
example : frame_step 1 = 1 := by with_unfolding_all rfl

/-- Python truncation agrees with the floor on nonnegative rationals. -/
theorem pyInt_eq_floor (q : ℚ) (h : 0 ≤ q) : pyInt q = ⌊q⌋ := by
  rw [pyInt, Int.tdiv_eq_ediv (Rat.num_nonneg.mpr h) (Int.natCast_nonneg q.den)]
  exact Rat.floor_def.symm

/-- Slicing with a nonnegative bound is `take`. -/
theorem pySliceTo_nonneg {α : Type} (l : List α) (m : ℤ) (hm : 0 ≤ m) :
    pySliceTo l m = l.take m.toNat := by
  rw [pySliceTo, if_pos hm]

/-- Slicing with a negative bound keeps `max 0 (length + m)` elements. -/
theorem length_pySliceTo_neg {α : Type} (l : List α) (m : ℤ) (hm : m < 0) :
    ((pySliceTo l m).length : ℤ) = max 0 ((l.length : ℤ) + m) := by
  rw [pySliceTo, if_neg (not_le.mpr hm), List.length_take]
  omega

/-- Membership in the embedded `range(0, n, step)`: exactly the nonnegative
multiples of `step` strictly below `n`. -/
theorem mem_pyRangeStep {n step x : ℤ} (hstep : 0 < step) :
    x ∈ pyRangeStep n step ↔ ∃ i : ℕ, x = (i : ℤ) * step ∧ x < n := by
  have hb : 0 < step.toNat := by omega
  have hs : (step.toNat : ℤ) = step := Int.toNat_of_nonneg hstep.le
  rw [pyRangeStep, if_pos hstep]
  constructor
  · intro hx
    rcases List.mem_map.mp hx with ⟨i, hi, rfl⟩
    rw [List.mem_range] at hi
    refine ⟨i, rfl, ?_⟩
    have h2 : (i + 1) * step.toNat ≤ n.toNat + step.toNat - 1 :=
      (Nat.le_div_iff_mul_le hb).mp hi
    rw [Nat.add_mul, Nat.one_mul] at h2
    rw [← hs, ← Nat.cast_mul]
    generalize hK : i * step.toNat = K at h2 ⊢
    omega
  · rintro ⟨i, rfl, hx⟩
    refine List.mem_map.mpr ⟨i, List.mem_range.mpr ?_, rfl⟩
    rw [Nat.lt_iff_add_one_le, Nat.le_div_iff_mul_le hb, Nat.add_mul, Nat.one_mul]
    have h4 : ((i * step.toNat : ℕ) : ℤ) < n := by rw [Nat.cast_mul, hs]; exact hx
    generalize hK : i * step.toNat = K at h4 ⊢
    omega

/-- The second component of input resolution, as a function of
`resolvesOk`. -/
theorem resolveInput_snd (path : String) (env : Env) :
    (resolveInput path env).2 =
      if resolvesOk path env then some (resolvedP path) else none := by
  rw [resolveInput, resolvesOk, resolvedP]
  by_cases h : isUrl path
  · simp only [h, if_true]
    cases env.fetch <;> simp
  · simp only [h, Bool.false_eq_true, if_false]
    by_cases hp : env.pathExists <;> simp [hp]

/-- When resolution succeeds, the run is the resolution events followed by
the rest of `main` on the resolved path. -/
theorem mainRun_of_ok (path : String) (perc : ℚ) (m : ℤ) (env : Env)
    (h : resolvesOk path env = true) :
    mainRun path perc m env =
      resolveEvs path env ++ afterResolve (resolvedP path) perc m env := by
  have h2 : (resolveInput path env).2 = some (resolvedP path) := by
    rw [resolveInput_snd, h]
    simp
  unfold mainRun
  rcases hr : resolveInput path env with ⟨evs, op⟩
  rw [hr] at h2
  simp only at h2
  subst h2
  rw [resolveEvs, hr]

/-- When resolution fails, the run is exactly the resolution events. -/
theorem mainRun_of_fail (path : String) (perc : ℚ) (m : ℤ) (env : Env)
    (h : resolvesOk path env = false) :
    mainRun path perc m env = resolveEvs path env := by
  have h2 : (resolveInput path env).2 = none := by
    rw [resolveInput_snd, h]
    simp
  unfold mainRun
  rcases hr : resolveInput path env with ⟨evs, op⟩
  rw [hr] at h2
  simp only at h2
  subst h2
  rw [resolveEvs, hr]

/-- Resolution events of an existing local (non-URL) input: none. -/
theorem resolveEvs_local (path : String) (env : Env)
    (hurl : isUrl path = false) (hp : env.pathExists = true) :
    resolveEvs path env = [] := by
  unfold resolveEvs resolveInput
  rw [hurl, if_neg Bool.false_ne_true, hp, if_pos rfl]

/-- Resolution events of a successful YouTube fetch. -/
theorem resolveEvs_url_ok (path : String) (env : Env)
    (hurl : isUrl path = true) (hf : env.fetch = FetchOutcome.downloadOk) :
    resolveEvs path env =
      [Event.printedMsg "Downloading video from YouTube...", Event.downloadAttempt,
       Event.downloaded, Event.printedMsg "Downloaded video to downloaded_video"] := by
  unfold resolveEvs resolveInput
  rw [hurl, if_pos rfl, hf]

/-- Every event the resolution phase can emit is a print, the download
call, its completion, an error print, or the early return. -/
theorem resolveEvs_cases (path : String) (env : Env) :
    ∀ e ∈ resolveEvs path env,
      (∃ s, e = Event.printedMsg s) ∨ e = Event.downloadAttempt ∨ e = Event.downloaded ∨
        (∃ s, e = Event.printedError s) ∨ e = Event.earlyReturn := by
  intro e he
  unfold resolveEvs resolveInput at he
  by_cases hurl : isUrl path = true
  · rw [hurl, if_pos rfl] at he
    cases hf : env.fetch <;> rw [hf] at he <;> simp only [] at he <;>
      fin_cases he <;> simp
  · rw [Bool.not_eq_true] at hurl
    rw [hurl, if_neg Bool.false_ne_true] at he
    by_cases hp : env.pathExists = true
    · rw [hp, if_pos rfl] at he
      simp at he
    · rw [Bool.not_eq_true] at hp
      rw [hp, if_neg Bool.false_ne_true] at he
      fin_cases he <;> simp

/-- A successful resolution emits either no events (local file) or the
four download events (URL). -/
theorem resolveEvs_ok_cases (path : String) (env : Env)
    (hres : resolvesOk path env = true) :
    resolveEvs path env = [] ∨
      resolveEvs path env =
        [Event.printedMsg "Downloading video from YouTube...", Event.downloadAttempt,
         Event.downloaded, Event.printedMsg "Downloaded video to downloaded_video"] := by
  rw [resolvesOk] at hres
  by_cases hurl : isUrl path = true
  · rw [hurl, if_pos rfl] at hres
    exact Or.inr (resolveEvs_url_ok path env hurl (by simpa using hres))
  · rw [Bool.not_eq_true] at hurl
    rw [hurl, if_neg Bool.false_ne_true] at hres
    exact Or.inl (resolveEvs_local path env hurl hres)

/-- The resolution phase never removes a directory. -/
theorem removedDir_notin_resolveEvs (path : String) (env : Env) (d : PyPath) :
    Event.removedDir d ∉ resolveEvs path env := by
  intro h
  rcases resolveEvs_cases path env _ h with ⟨s, hs⟩ | hs | hs | ⟨s, hs⟩ | hs <;> simp at hs

/-- The resolution phase never creates a directory. -/
theorem createdDir_notin_resolveEvs (path : String) (env : Env) (d : PyPath) :
    Event.createdDir d ∉ resolveEvs path env := by
  intro h
  rcases resolveEvs_cases path env _ h with ⟨s, hs⟩ | hs | hs | ⟨s, hs⟩ | hs <;> simp at hs

/-- The resolution phase never writes a frame. -/
theorem wroteFrame_notin_resolveEvs (path : String) (env : Env)
    (i : ℤ) (f : PyPath) (t : ℚ) :
    Event.wroteFrame i f t ∉ resolveEvs path env := by
  intro h
  rcases resolveEvs_cases path env _ h with ⟨s, hs⟩ | hs | hs | ⟨s, hs⟩ | hs <;> simp at hs

/-- The resolution phase never crashes (all its exceptions are caught). -/
theorem crashed_notin_resolveEvs (path : String) (env : Env) (s : String) :
    Event.crashed s ∉ resolveEvs path env := by
  intro h
  rcases resolveEvs_cases path env _ h with ⟨s', hs⟩ | hs | hs | ⟨s', hs⟩ | hs <;> simp at hs

/-- A successful resolution prints no error. -/
theorem printedError_notin_resolveEvs (path : String) (env : Env)
    (hres : resolvesOk path env = true) (s : String) :
    Event.printedError s ∉ resolveEvs path env := by
  rcases resolveEvs_ok_cases path env hres with h | h <;> rw [h] <;> simp

/-- Shape of the post-resolution phase when the fraction is valid and the
output directory exists: the whole successful pipeline. -/
theorem afterResolve_success (p : PyPath) (perc : ℚ) (m : ℤ) (env : Env)
    (hfrac : 0 < perc ∧ perc ≤ 1) (hdir : env.outputDirExists = true) :
    afterResolve p perc m env =
      [Event.openedClip, Event.computedTotalFrames (total_frames env), Event.fractionOk,
       Event.removedDir (outputDirOf p), Event.createdDir (outputDirOf p),
       Event.computedStride (frame_step perc),
       Event.computedIndices (sampledIndices (total_frames env) (frame_step perc) m),
       Event.printedMsg "Extracting frames..."] ++
      frameEvents (outputDirOf p) env.fps
        (sampledIndices (total_frames env) (frame_step perc) m) ++
      [Event.reportedCount
        (sampledIndices (total_frames env) (frame_step perc) m).length] := by
  unfold afterResolve
  rw [if_pos hfrac, hdir, if_pos rfl]

/-- Shape of the post-resolution phase when the fraction is valid but the
output directory is absent: `shutil.rmtree` raises and the run crashes. -/
theorem afterResolve_nodir (p : PyPath) (perc : ℚ) (m : ℤ) (env : Env)
    (hfrac : 0 < perc ∧ perc ≤ 1) (hdir : env.outputDirExists = false) :
    afterResolve p perc m env =
      [Event.openedClip, Event.computedTotalFrames (total_frames env), Event.fractionOk,
       Event.crashed "FileNotFoundError"] := by
  unfold afterResolve
  rw [if_pos hfrac, hdir, if_neg Bool.false_ne_true]

/-- Shape of the post-resolution phase when the fraction is invalid: error
print and early return, after the total frame count was computed. -/
theorem afterResolve_invalid (p : PyPath) (perc : ℚ) (m : ℤ) (env : Env)
    (hbad : ¬(0 < perc ∧ perc ≤ 1)) :
    afterResolve p perc m env =
      [Event.openedClip, Event.computedTotalFrames (total_frames env),
       Event.printedError "Error: perc_frames must be between 0 and 1.",
       Event.earlyReturn] := by
  unfold afterResolve
  rw [if_neg hbad]

/-- The full trace of a run that resolves its input, passes validation and
finds the output directory in place. -/
theorem mainRun_success (path : String) (perc : ℚ) (m : ℤ) (env : Env)
    (hres : resolvesOk path env = true) (hfrac : 0 < perc ∧ perc ≤ 1)
    (hdir : env.outputDirExists = true) :
    mainRun path perc m env =
      resolveEvs path env ++
        ([Event.openedClip, Event.computedTotalFrames (total_frames env), Event.fractionOk,
          Event.removedDir (outputDirOf (resolvedP path)),
          Event.createdDir (outputDirOf (resolvedP path)),
          Event.computedStride (frame_step perc),
          Event.computedIndices (sampledIndices (total_frames env) (frame_step perc) m),
          Event.printedMsg "Extracting frames..."] ++
         frameEvents (outputDirOf (resolvedP path)) env.fps
           (sampledIndices (total_frames env) (frame_step perc) m) ++
         [Event.reportedCount
           (sampledIndices (total_frames env) (frame_step perc) m).length]) := by
  rw [mainRun_of_ok path perc m env hres, afterResolve_success _ _ _ _ hfrac hdir]

/-- Membership of the expected write event for each sampled index. -/
theorem mem_frameEvents_of_mem (d : PyPath) (fps : ℚ) (l : List ℤ) (i : ℤ)
    (hi : i ∈ l) :
    Event.wroteFrame i (d.child (toString i ++ ".jpg")) ((i : ℚ) / fps) ∈
      frameEvents d fps l :=
  List.mem_map_of_mem _ hi

/-- Every event of the extraction loop is a frame write. -/
theorem frameEvents_shape (d : PyPath) (fps : ℚ) (l : List ℤ) :
    ∀ e ∈ frameEvents d fps l, ∃ i f t, e = Event.wroteFrame i f t := by
  intro e he
  rcases List.mem_map.mp he with ⟨i, _, rfl⟩
  exact ⟨_, _, _, rfl⟩

/-- The post-resolution phase never calls the download. -/
theorem attempts_afterResolve (p : PyPath) (perc : ℚ) (m : ℤ) (env : Env) :
    (afterResolve p perc m env).countP isDownloadAttempt = 0 := by
  rw [List.countP_eq_zero]
  intro e he
  simp only [afterResolve] at he
  split at he
  · split at he
    · rcases List.mem_append.mp he with he1 | he1
      · rcases List.mem_append.mp he1 with he2 | he2
        · fin_cases he2 <;> simp [isDownloadAttempt]
        · rcases frameEvents_shape _ _ _ _ he2 with ⟨i, f, t, rfl⟩
          simp [isDownloadAttempt]
      · fin_cases he1
        simp [isDownloadAttempt]
    · fin_cases he <;> simp [isDownloadAttempt]
  · fin_cases he <;> simp [isDownloadAttempt]

/-- The resolution phase calls the download at most once. -/
theorem attempts_resolveEvs_le_one (path : String) (env : Env) :
    (resolveEvs path env).countP isDownloadAttempt ≤ 1 := by
  unfold resolveEvs resolveInput
  by_cases hurl : isUrl path = true
  · rw [hurl, if_pos rfl]
    cases env.fetch <;> simp [List.countP_cons, isDownloadAttempt]
  · rw [Bool.not_eq_true] at hurl
    rw [hurl, if_neg Bool.false_ne_true]
    by_cases hp : env.pathExists = true
    · rw [hp, if_pos rfl]
      simp
    · rw [Bool.not_eq_true] at hp
      rw [hp, if_neg Bool.false_ne_true]
      simp [List.countP_cons, isDownloadAttempt]

/-- Any run of `main` calls the download at most once. -/
theorem attempts_mainRun_le_one (path : String) (perc : ℚ) (m : ℤ) (env : Env) :
    (mainRun path perc m env).countP isDownloadAttempt ≤ 1 := by
  cases hres : resolvesOk path env
  · rw [mainRun_of_fail path perc m env hres]
    exact attempts_resolveEvs_le_one path env
  · rw [mainRun_of_ok path perc m env hres, List.countP_append, attempts_afterResolve]
    simpa using attempts_resolveEvs_le_one path env

/-- A fully successful run prints no error message. -/
theorem printedError_notin_mainRun_success (path : String) (perc : ℚ) (m : ℤ)
    (env : Env) (hres : resolvesOk path env = true) (hfrac : 0 < perc ∧ perc ≤ 1)
    (hdir : env.outputDirExists = true) :
    ∀ s, Event.printedError s ∉ mainRun path perc m env := by
  intro s h
  rw [mainRun_success path perc m env hres hfrac hdir] at h
  rcases List.mem_append.mp h with h1 | h1
  · exact printedError_notin_resolveEvs path env hres s h1
  · rcases List.mem_append.mp h1 with h2 | h2
    · rcases List.mem_append.mp h2 with h3 | h3
      · simp at h3
      · rcases frameEvents_shape _ _ _ _ h3 with ⟨i, f, t, he⟩
        simp at he
    · simp at h2

/-- C1 (counterexample): a run that resolves its input and passes the
fraction validation, with no pre-existing `images` directory, crashes in
`shutil.rmtree` and never creates the directory — the claim that the
directory is recreated without crashing whether or not it existed fails. -/
theorem c1_counterexample :
    resolvesOk "video.mp4" envNoDir = true ∧ (0 < (1 : ℚ) ∧ (1 : ℚ) ≤ 1) ∧
    mainRun "video.mp4" 1 180 envNoDir =
      [Event.openedClip, Event.computedTotalFrames 300, Event.fractionOk,
       Event.crashed "FileNotFoundError"] ∧
    (∀ d, Event.createdDir d ∉ mainRun "video.mp4" 1 180 envNoDir) := by
  have htr : mainRun "video.mp4" 1 180 envNoDir =
      [Event.openedClip, Event.computedTotalFrames 300, Event.fractionOk,
       Event.crashed "FileNotFoundError"] := by
    with_unfolding_all rfl
  refine ⟨by decide, by decide, htr, ?_⟩
  intro d h
  rw [htr] at h
  simp at h

/-- C1 (amended): in a run that resolves its input and passes the fraction
validation, if the output directory exists it is destroyed and recreated
and the run does not crash; if it does not exist, `shutil.rmtree` raises
`FileNotFoundError` and no directory is removed or created. -/
theorem c1_recreate_or_crash (path : String) (perc : ℚ) (m : ℤ) (env : Env)
    (hres : resolvesOk path env = true) (hfrac : 0 < perc ∧ perc ≤ 1) :
    (env.outputDirExists = true →
      (∃ pre post,
        mainRun path perc m env =
          pre ++ [Event.removedDir (outputDirOf (resolvedP path)),
                  Event.createdDir (outputDirOf (resolvedP path))] ++ post) ∧
      ∀ s, Event.crashed s ∉ mainRun path perc m env) ∧
    (env.outputDirExists = false →
      Event.crashed "FileNotFoundError" ∈ mainRun path perc m env ∧
      (∀ d, Event.removedDir d ∉ mainRun path perc m env) ∧
      (∀ d, Event.createdDir d ∉ mainRun path perc m env)) := by
  constructor
  · intro hdir
    have htr := mainRun_success path perc m env hres hfrac hdir
    constructor
    · refine ⟨resolveEvs path env ++
        [Event.openedClip, Event.computedTotalFrames (total_frames env), Event.fractionOk],
        [Event.computedStride (frame_step perc),
         Event.computedIndices (sampledIndices (total_frames env) (frame_step perc) m),
         Event.printedMsg "Extracting frames..."] ++
        frameEvents (outputDirOf (resolvedP path)) env.fps
          (sampledIndices (total_frames env) (frame_step perc) m) ++
        [Event.reportedCount
          (sampledIndices (total_frames env) (frame_step perc) m).length], ?_⟩
      rw [htr]
      simp
    · intro s h
      rw [htr] at h
      rcases List.mem_append.mp h with h1 | h1
      · exact crashed_notin_resolveEvs path env s h1
      · rcases List.mem_append.mp h1 with h2 | h2
        · rcases List.mem_append.mp h2 with h3 | h3
          · simp at h3
          · rcases frameEvents_shape _ _ _ _ h3 with ⟨i, f, t, he⟩
            simp at he
        · simp at h2
  · intro hdir
    have htr : mainRun path perc m env =
        resolveEvs path env ++
          [Event.openedClip, Event.computedTotalFrames (total_frames env),
           Event.fractionOk, Event.crashed "FileNotFoundError"] := by
      rw [mainRun_of_ok path perc m env hres, afterResolve_nodir _ _ _ _ hfrac hdir]
    refine ⟨?_, ?_, ?_⟩
    · rw [htr]
      simp
    · intro d h
      rw [htr] at h
      rcases List.mem_append.mp h with h1 | h1
      · exact removedDir_notin_resolveEvs path env d h1
      · simp at h1
    · intro d h
      rw [htr] at h
      rcases List.mem_append.mp h with h1 | h1
      · exact createdDir_notin_resolveEvs path env d h1
      · simp at h1

/-- Witness for C1 (amended): concrete instantiation on a local file with
an existing output directory. -/
theorem c1_recreate_or_crash_witness :
    (envLocal.outputDirExists = true →
      (∃ pre post,
        mainRun "video.mp4" 1 180 envLocal =
          pre ++ [Event.removedDir (outputDirOf (resolvedP "video.mp4")),
                  Event.createdDir (outputDirOf (resolvedP "video.mp4"))] ++ post) ∧
      ∀ s, Event.crashed s ∉ mainRun "video.mp4" 1 180 envLocal) ∧
    (envLocal.outputDirExists = false →
      Event.crashed "FileNotFoundError" ∈ mainRun "video.mp4" 1 180 envLocal ∧
      (∀ d, Event.removedDir d ∉ mainRun "video.mp4" 1 180 envLocal) ∧
      (∀ d, Event.createdDir d ∉ mainRun "video.mp4" 1 180 envLocal)) :=
  c1_recreate_or_crash "video.mp4" 1 180 envLocal (by decide) (by decide)

/-- C2: for every fraction in the open-closed interval (0, 1], the frame
step equals `max 1 ⌊1 / fraction⌋`. -/
theorem c2_stride_formula (perc : ℚ) (h1 : 0 < perc) (_h2 : perc ≤ 1) :
    frame_step perc = max 1 ⌊1 / perc⌋ := by
  rw [frame_step, pyInt_eq_floor _ (le_of_lt (one_div_pos.mpr h1))]

/-- Witness for C2: fraction one tenth. -/
theorem c2_stride_formula_witness :
    frame_step (mkRat 1 10) = max 1 ⌊1 / (mkRat 1 10 : ℚ)⌋ :=
  c2_stride_formula (mkRat 1 10) (by decide) (by decide)

/-- C3 (counterexample): for a negative maximum frame count the program
keeps all but the last `|max|` strided indices instead of truncating to at
most the maximum count: with total 10, stride 1, max -3 it keeps 7
indices. -/
theorem c3_counterexample :
    sampledIndices 10 1 (-3) = [0, 1, 2, 3, 4, 5, 6] ∧
    ¬(((sampledIndices 10 1 (-3)).length : ℤ) ≤ -3) := by
  decide

/-- C3 (amended): for every total frame count, stride and nonnegative
maximum count, the sampled indices are `range(0, total, stride)` truncated
to the first `max` elements — hence at most `max` many, each a multiple of
the stride below the total; with total 10, max 3 and fraction 1 exactly
the indices 0, 1, 2 are selected. -/
theorem c3_indices (total step m : ℤ) (hm : 0 ≤ m) :
    sampledIndices total step m = (pyRangeStep total step).take m.toNat ∧
    (sampledIndices total step m).length ≤ m.toNat ∧
    (0 < step →
      ∀ x ∈ sampledIndices total step m, ∃ i : ℕ, x = (i : ℤ) * step ∧ x < total) ∧
    sampledIndices 10 (frame_step 1) 3 = [0, 1, 2] := by
  have ht : sampledIndices total step m = (pyRangeStep total step).take m.toNat := by
    unfold sampledIndices
    exact pySliceTo_nonneg _ _ hm
  refine ⟨ht, ?_, ?_, ?_⟩
  · rw [ht]
    exact List.length_take_le _ _
  · intro hstep x hx
    rw [ht] at hx
    exact (mem_pyRangeStep hstep).mp (List.mem_of_mem_take hx)
  · with_unfolding_all rfl

/-- Witness for C3 (amended): total 10, stride 1, maximum 3. -/
theorem c3_indices_witness :
    sampledIndices 10 1 3 = (pyRangeStep 10 1).take (3 : ℤ).toNat ∧
    (sampledIndices 10 1 3).length ≤ (3 : ℤ).toNat ∧
    (0 < (1 : ℤ) →
      ∀ x ∈ sampledIndices 10 1 3, ∃ i : ℕ, x = (i : ℤ) * 1 ∧ x < 10) ∧
    sampledIndices 10 (frame_step 1) 3 = [0, 1, 2] :=
  c3_indices 10 1 3 (by decide)

/-- C4: for every fraction outside (0, 1] in a run whose input resolves,
the validation error is printed and the run returns early, with no frame
written and no directory removed or created. -/
theorem c4_invalid_fraction (path : String) (perc : ℚ) (m : ℤ) (env : Env)
    (hres : resolvesOk path env = true) (hbad : ¬(0 < perc ∧ perc ≤ 1)) :
    mainRun path perc m env =
      resolveEvs path env ++
        [Event.openedClip, Event.computedTotalFrames (total_frames env),
         Event.printedError "Error: perc_frames must be between 0 and 1.",
         Event.earlyReturn] ∧
    (∀ d, Event.removedDir d ∉ mainRun path perc m env) ∧
    (∀ d, Event.createdDir d ∉ mainRun path perc m env) ∧
    (∀ i f t, Event.wroteFrame i f t ∉ mainRun path perc m env) := by
  have htr : mainRun path perc m env =
      resolveEvs path env ++
        [Event.openedClip, Event.computedTotalFrames (total_frames env),
         Event.printedError "Error: perc_frames must be between 0 and 1.",
         Event.earlyReturn] := by
    rw [mainRun_of_ok path perc m env hres, afterResolve_invalid _ _ _ _ hbad]
  refine ⟨htr, ?_, ?_, ?_⟩
  · intro d h
    rw [htr] at h
    rcases List.mem_append.mp h with h1 | h1
    · exact removedDir_notin_resolveEvs path env d h1
    · simp at h1
  · intro d h
    rw [htr] at h
    rcases List.mem_append.mp h with h1 | h1
    · exact createdDir_notin_resolveEvs path env d h1
    · simp at h1
  · intro i f t h
    rw [htr] at h
    rcases List.mem_append.mp h with h1 | h1
    · exact wroteFrame_notin_resolveEvs path env i f t h1
    · simp at h1

/-- Witness for C4: fraction 3/2 (that is, 1.5) on an existing local
file. -/
theorem c4_invalid_fraction_witness :
    mainRun "video.mp4" (mkRat 3 2) 180 envLocal =
      resolveEvs "video.mp4" envLocal ++
        [Event.openedClip, Event.computedTotalFrames (total_frames envLocal),
         Event.printedError "Error: perc_frames must be between 0 and 1.",
         Event.earlyReturn] ∧
    (∀ d, Event.removedDir d ∉ mainRun "video.mp4" (mkRat 3 2) 180 envLocal) ∧
    (∀ d, Event.createdDir d ∉ mainRun "video.mp4" (mkRat 3 2) 180 envLocal) ∧
    (∀ i f t, Event.wroteFrame i f t ∉ mainRun "video.mp4" (mkRat 3 2) 180 envLocal) :=
  c4_invalid_fraction "video.mp4" (mkRat 3 2) 180 envLocal (by decide) (by decide)


/-- C5 (counterexample): the total frame count — a sampling-plan value —
is computed before the fraction validation: with an invalid fraction the
count is still computed although validation fails, and in a successful run
its event precedes the validation event. -/
theorem c5_counterexample :
    mainRun "video.mp4" 2 180 envLocal =
      [Event.openedClip, Event.computedTotalFrames 300,
       Event.printedError "Error: perc_frames must be between 0 and 1.",
       Event.earlyReturn] ∧
    Event.fractionOk ∉ mainRun "video.mp4" 2 180 envLocal ∧
    List.indexOf (Event.computedTotalFrames 300) (mainRun "video.mp4" 1 0 envLocal) <
      List.indexOf Event.fractionOk (mainRun "video.mp4" 1 0 envLocal) := by
  have h1 : mainRun "video.mp4" 2 180 envLocal =
      [Event.openedClip, Event.computedTotalFrames 300,
       Event.printedError "Error: perc_frames must be between 0 and 1.",
       Event.earlyReturn] := by
    with_unfolding_all rfl
  refine ⟨h1, ?_, ?_⟩
  · rw [h1]
    simp
  · exact of_decide_eq_true (by with_unfolding_all rfl)

/-- C5 (amended): the stages occur in the order input resolution, open
video and compute total frame count, fraction validation, directory
recreation, stride and index computation, extraction, report — stride and
indices come after validation, but the total frame count is computed just
before it; the resolution phase emits only download-related events. -/
theorem c5_stage_order (path : String) (perc : ℚ) (m : ℤ) (env : Env)
    (hres : resolvesOk path env = true) (hfrac : 0 < perc ∧ perc ≤ 1)
    (hdir : env.outputDirExists = true) :
    mainRun path perc m env =
      resolveEvs path env ++
        ([Event.openedClip, Event.computedTotalFrames (total_frames env), Event.fractionOk,
          Event.removedDir (outputDirOf (resolvedP path)),
          Event.createdDir (outputDirOf (resolvedP path)),
          Event.computedStride (frame_step perc),
          Event.computedIndices (sampledIndices (total_frames env) (frame_step perc) m),
          Event.printedMsg "Extracting frames..."] ++
         frameEvents (outputDirOf (resolvedP path)) env.fps
           (sampledIndices (total_frames env) (frame_step perc) m) ++
         [Event.reportedCount
           (sampledIndices (total_frames env) (frame_step perc) m).length]) ∧
    ∀ e ∈ resolveEvs path env,
      (∃ s, e = Event.printedMsg s) ∨ e = Event.downloadAttempt ∨ e = Event.downloaded := by
  refine ⟨mainRun_success path perc m env hres hfrac hdir, ?_⟩
  intro e he
  rcases resolveEvs_ok_cases path env hres with h | h <;> rw [h] at he
  · simp at he
  · fin_cases he <;> simp

/-- Witness for C5 (amended): local file, fraction 1, maximum 0. -/
theorem c5_stage_order_witness :
    mainRun "video.mp4" 1 0 envLocal =
      resolveEvs "video.mp4" envLocal ++
        ([Event.openedClip, Event.computedTotalFrames (total_frames envLocal),
          Event.fractionOk,
          Event.removedDir (outputDirOf (resolvedP "video.mp4")),
          Event.createdDir (outputDirOf (resolvedP "video.mp4")),
          Event.computedStride (frame_step 1),
          Event.computedIndices (sampledIndices (total_frames envLocal) (frame_step 1) 0),
          Event.printedMsg "Extracting frames..."] ++
         frameEvents (outputDirOf (resolvedP "video.mp4")) envLocal.fps
           (sampledIndices (total_frames envLocal) (frame_step 1) 0) ++
         [Event.reportedCount
           (sampledIndices (total_frames envLocal) (frame_step 1) 0).length]) ∧
    ∀ e ∈ resolveEvs "video.mp4" envLocal,
      (∃ s, e = Event.printedMsg s) ∨ e = Event.downloadAttempt ∨ e = Event.downloaded :=
  c5_stage_order "video.mp4" 1 0 envLocal (by decide) (by decide) (by decide)

/-- C6: a non-URL input naming no existing file yields exactly the error
print and the early return; no directory is removed or created. -/
theorem c6_missing_file (path : String) (perc : ℚ) (m : ℤ) (env : Env)
    (hurl : isUrl path = false) (hp : env.pathExists = false) :
    mainRun path perc m env =
      [Event.printedError "Error: File does not exist.", Event.earlyReturn] ∧
    (∀ d, Event.removedDir d ∉ mainRun path perc m env) ∧
    (∀ d, Event.createdDir d ∉ mainRun path perc m env) := by
  have hres : resolvesOk path env = false := by
    rw [resolvesOk, hurl, if_neg Bool.false_ne_true]
    exact hp
  have htr : mainRun path perc m env =
      [Event.printedError "Error: File does not exist.", Event.earlyReturn] := by
    rw [mainRun_of_fail path perc m env hres]
    unfold resolveEvs resolveInput
    rw [hurl, if_neg Bool.false_ne_true, hp, if_neg Bool.false_ne_true]
  refine ⟨htr, ?_, ?_⟩ <;> intro d h <;> rw [htr] at h <;> simp at h

/-- Witness for C6: a missing local path. -/
theorem c6_missing_file_witness :
    mainRun "missing.mp4" 1 180 envNoFile =
      [Event.printedError "Error: File does not exist.", Event.earlyReturn] ∧
    (∀ d, Event.removedDir d ∉ mainRun "missing.mp4" 1 180 envNoFile) ∧
    (∀ d, Event.createdDir d ∉ mainRun "missing.mp4" 1 180 envNoFile) :=
  c6_missing_file "missing.mp4" 1 180 envNoFile (by decide) (by decide)

/-- C7: on a URL input the download is attempted at most once, and any
fetch failure (no MP4 stream, or an exception at any point) ends the run
with an error print and an early return — no crash, no frame written, no
directory removed. -/
theorem c7_url_failure (path : String) (perc : ℚ) (m : ℤ) (env : Env)
    (hurl : isUrl path = true) :
    (mainRun path perc m env).countP isDownloadAttempt ≤ 1 ∧
    (env.fetch ≠ FetchOutcome.downloadOk →
      (∃ s pre,
        mainRun path perc m env = pre ++ [Event.printedError s, Event.earlyReturn]) ∧
      (∀ s, Event.crashed s ∉ mainRun path perc m env) ∧
      (∀ i f t, Event.wroteFrame i f t ∉ mainRun path perc m env) ∧
      (∀ d, Event.removedDir d ∉ mainRun path perc m env)) := by
  refine ⟨attempts_mainRun_le_one path perc m env, ?_⟩
  intro hf
  have hres : resolvesOk path env = false := by
    rw [resolvesOk, hurl, if_pos rfl]
    simpa using hf
  have htr := mainRun_of_fail path perc m env hres
  rw [htr]
  refine ⟨?_, ?_, ?_, ?_⟩
  · unfold resolveEvs resolveInput
    rw [hurl, if_pos rfl]
    cases hfe : env.fetch with
    | raiseEarly msg =>
        exact ⟨"Error downloading video: " ++ msg,
          [Event.printedMsg "Downloading video from YouTube..."], rfl⟩
    | noStreams =>
        exact ⟨"Error: No suitable MP4 video stream found.",
          [Event.printedMsg "Downloading video from YouTube..."], rfl⟩
    | raiseDuringDownload msg =>
        exact ⟨"Error downloading video: " ++ msg,
          [Event.printedMsg "Downloading video from YouTube...", Event.downloadAttempt], rfl⟩
    | downloadOk => exact absurd hfe hf
  · exact fun s => crashed_notin_resolveEvs path env s
  · exact fun i f t => wroteFrame_notin_resolveEvs path env i f t
  · exact fun d => removedDir_notin_resolveEvs path env d

/-- Witness for C7: a URL whose fetch finds no MP4 stream. -/
theorem c7_url_failure_witness :
    (mainRun "https://example.com/v" 1 180 envNoStreams).countP isDownloadAttempt ≤ 1 ∧
    (envNoStreams.fetch ≠ FetchOutcome.downloadOk →
      (∃ s pre,
        mainRun "https://example.com/v" 1 180 envNoStreams =
          pre ++ [Event.printedError s, Event.earlyReturn]) ∧
      (∀ s, Event.crashed s ∉ mainRun "https://example.com/v" 1 180 envNoStreams) ∧
      (∀ i f t,
        Event.wroteFrame i f t ∉ mainRun "https://example.com/v" 1 180 envNoStreams) ∧
      (∀ d, Event.removedDir d ∉ mainRun "https://example.com/v" 1 180 envNoStreams)) :=
  c7_url_failure "https://example.com/v" 1 180 envNoStreams (by decide)

/-- C8: the total frame count used for sampling is the floor of
`clip.fps * clip.duration` (both nonnegative for a real clip). -/
theorem c8_total_frames (env : Env) (h1 : 0 ≤ env.fps) (h2 : 0 ≤ env.duration) :
    total_frames env = ⌊env.fps * env.duration⌋ := by
  rw [total_frames]
  exact pyInt_eq_floor _ (mul_nonneg h1 h2)

/-- Witness for C8: fps 30, duration 10. -/
theorem c8_total_frames_witness :
    total_frames envLocal = ⌊envLocal.fps * envLocal.duration⌋ :=
  c8_total_frames envLocal (by decide) (by decide)

/-- C9: in a successful run, each sampled index yields a write event for
the frame decoded at time `index / fps` saved to `<output_dir>/<index>.jpg`,
and the reported count equals the number of sampled indices. -/
theorem c9_frame_writes (path : String) (perc : ℚ) (m : ℤ) (env : Env)
    (hres : resolvesOk path env = true) (hfrac : 0 < perc ∧ perc ≤ 1)
    (hdir : env.outputDirExists = true) :
    (∀ i ∈ sampledIndices (total_frames env) (frame_step perc) m,
      Event.wroteFrame i ((outputDirOf (resolvedP path)).child (toString i ++ ".jpg"))
        ((i : ℚ) / env.fps) ∈ mainRun path perc m env) ∧
    Event.reportedCount (sampledIndices (total_frames env) (frame_step perc) m).length ∈
      mainRun path perc m env := by
  rw [mainRun_success path perc m env hres hfrac hdir]
  constructor
  · intro i hi
    refine List.mem_append.mpr (Or.inr (List.mem_append.mpr
      (Or.inl (List.mem_append.mpr (Or.inr ?_)))))
    exact mem_frameEvents_of_mem _ _ _ _ hi
  · refine List.mem_append.mpr (Or.inr (List.mem_append.mpr (Or.inr ?_)))
    simp

/-- Witness for C9: local file, fraction 1, maximum 2. -/
theorem c9_frame_writes_witness :
    (∀ i ∈ sampledIndices (total_frames envLocal) (frame_step 1) 2,
      Event.wroteFrame i ((outputDirOf (resolvedP "video.mp4")).child (toString i ++ ".jpg"))
        ((i : ℚ) / envLocal.fps) ∈ mainRun "video.mp4" 1 2 envLocal) ∧
    Event.reportedCount (sampledIndices (total_frames envLocal) (frame_step 1) 2).length ∈
      mainRun "video.mp4" 1 2 envLocal :=
  c9_frame_writes "video.mp4" 1 2 envLocal (by decide) (by decide) (by decide)

/-- C10: the maximum frame count is never validated: with max 0 a
successful run prints no error, still recreates the output directory,
writes no frame and reports zero; with a negative max the run also prints
no error and the number of sampled indices is `max 0 (N + max)` where `N`
counts the strided indices below the total. -/
theorem c10_max_frames_unvalidated (path : String) (perc : ℚ) (env : Env)
    (hres : resolvesOk path env = true) (hfrac : 0 < perc ∧ perc ≤ 1)
    (hdir : env.outputDirExists = true) :
    ((∀ s, Event.printedError s ∉ mainRun path perc 0 env) ∧
     Event.createdDir (outputDirOf (resolvedP path)) ∈ mainRun path perc 0 env ∧
     (∀ i f t, Event.wroteFrame i f t ∉ mainRun path perc 0 env) ∧
     Event.reportedCount 0 ∈ mainRun path perc 0 env) ∧
    (∀ m : ℤ, m < 0 →
      (∀ s, Event.printedError s ∉ mainRun path perc m env) ∧
      ((sampledIndices (total_frames env) (frame_step perc) m).length : ℤ) =
        max 0 (((pyRangeStep (total_frames env) (frame_step perc)).length : ℤ) + m)) := by
  have h0 : sampledIndices (total_frames env) (frame_step perc) 0 = [] := by
    unfold sampledIndices
    rw [pySliceTo_nonneg _ _ le_rfl]
    simp
  have htr := mainRun_success path perc 0 env hres hfrac hdir
  rw [h0] at htr
  simp only [frameEvents, List.map_nil, List.length_nil, List.append_nil] at htr
  refine ⟨⟨printedError_notin_mainRun_success path perc 0 env hres hfrac hdir,
    ?_, ?_, ?_⟩, ?_⟩
  · rw [htr]
    simp
  · intro i f t h
    rw [htr] at h
    rcases List.mem_append.mp h with h1 | h1
    · exact wroteFrame_notin_resolveEvs path env i f t h1
    · simp at h1
  · rw [htr]
    simp
  · intro m hm
    refine ⟨printedError_notin_mainRun_success path perc m env hres hfrac hdir, ?_⟩
    unfold sampledIndices
    exact length_pySliceTo_neg _ _ hm

/-- Witness for C10: local file, fraction 1. -/
theorem c10_max_frames_unvalidated_witness :
    ((∀ s, Event.printedError s ∉ mainRun "video.mp4" 1 0 envLocal) ∧
     Event.createdDir (outputDirOf (resolvedP "video.mp4")) ∈ mainRun "video.mp4" 1 0 envLocal ∧
     (∀ i f t, Event.wroteFrame i f t ∉ mainRun "video.mp4" 1 0 envLocal) ∧
     Event.reportedCount 0 ∈ mainRun "video.mp4" 1 0 envLocal) ∧
    (∀ m : ℤ, m < 0 →
      (∀ s, Event.printedError s ∉ mainRun "video.mp4" 1 m envLocal) ∧
      ((sampledIndices (total_frames envLocal) (frame_step 1) m).length : ℤ) =
        max 0 (((pyRangeStep (total_frames envLocal) (frame_step 1)).length : ℤ) + m)) :=
  c10_max_frames_unvalidated "video.mp4" 1 envLocal (by decide) (by decide) (by decide)
